import Mathlib

/-!
# Verification of the interactive prompt engine (`interact_prompt_cli.py`)

A shallow embedding of the prompt toolkit: the retry/confirm loop
(`PromptBase.ask`), option selection (`OptionPrompt`: resolution maps,
default resolution, single/multi parsing), freeform collection
(`FreeformPrompt`), the Boolean specialization (`YesNoPrompt`) and the
routing façade (`interactive_prompt`).

Python values that can appear as catalog entries (booleans, integers,
strings, `None`) are modelled by `PyVal`; Python `str()` by `pyStr`;
Python dictionaries by association lists with dict-assignment
(overwrite-or-append) semantics; exceptions (`IndexError`, `KeyError`,
`TypeError`) by `Except String`.
-/

namespace PromptEngine

/-- A Python value usable as a catalog underlying value. -/
inductive PyVal where
  | vNone
  | vBool (b : Bool)
  | vInt (n : Int)
  | vStr (s : String)
  deriving DecidableEq, Repr

/-- Python `str(v)` for the values we model (`str(True) = "True"`, etc.). -/
def pyStr : PyVal → String
  | .vNone => "None"
  | .vBool true => "True"
  | .vBool false => "False"
  | .vInt n => toString n
  | .vStr s => s

/-- Python `str.lower()` (ASCII case folding, as used by the prompts). -/
def pyLower (s : String) : String := String.mk (s.data.map Char.toLower)

/-- Whitespace as stripped by Python `str.strip()`. -/
def isPySpace (c : Char) : Bool :=
  c = ' ' ∨ c = '\t' ∨ c = '\n' ∨ c = '\r' ∨ c = '\x0b' ∨ c = '\x0c'

/-- Python `str.strip()`: drop whitespace from both ends. -/
def pyStrip (s : String) : String :=
  String.mk (((s.data.dropWhile isPySpace).reverse.dropWhile isPySpace).reverse)

/-- Helper of `pySplitComma`: split a character list at every comma. -/
def splitCommaAux : List Char → List Char → List (List Char)
  | [], acc => [acc.reverse]
  | c :: cs, acc =>
    if c = ',' then acc.reverse :: splitCommaAux cs [] else splitCommaAux cs (c :: acc)

/-- Python `s.split(",")` (single-character separator, keeps empty
pieces; `"".split(",") == [""]`). -/
def pySplitComma (s : String) : List String :=
  (splitCommaAux s.data []).map String.mk

/-- Python `sep.join(xs)`. -/
def pyJoin (sep : String) : List String → String
  | [] => ""
  | [x] => x
  | x :: y :: xs => x ++ sep ++ pyJoin sep (y :: xs)

/-- Decidable equality for `Except`, to evaluate modelled runs that may
raise. -/
instance {ε α : Type} [DecidableEq ε] [DecidableEq α] : DecidableEq (Except ε α)
  | .ok a, .ok b =>
    if h : a = b then .isTrue (by rw [h]) else .isFalse (by simp [h])
  | .error a, .error b =>
    if h : a = b then .isTrue (by rw [h]) else .isFalse (by simp [h])
  | .ok _, .error _ => .isFalse (by simp)
  | .error _, .ok _ => .isFalse (by simp)

/-- Python dict lookup `d[k]` restricted to the successful case:
`none` models a `KeyError`. Keys are compared left to right; a Python
dict never holds two equal keys, so the first hit is the entry. -/
def dictGet (d : List (String × PyVal)) (k : String) : Option PyVal :=
  (d.find? (fun p => p.1 == k)).map (fun p => p.2)

/-- Python dict lookup `d[k]` where the key is known to be present;
the `vNone` branch models the (unreachable at our call sites)
`KeyError`. -/
def dictGetKE (d : List (String × PyVal)) (k : String) : PyVal :=
  match d.find? (fun p => p.1 == k) with
  | some p => p.2
  | none => PyVal.vNone

/-- Python dict assignment `d[k] = v` on an association list whose keys
are `PyVal` (the value map mixes string keys with raw-value keys when
`case_sensitive` is on): overwrite the existing entry in place, else
append. -/
def dictSetV (d : List (PyVal × PyVal)) (k v : PyVal) : List (PyVal × PyVal) :=
  if d.any (fun p => p.1 == k) then
    d.map (fun p => if p.1 == k then (k, v) else p)
  else d ++ [(k, v)]

/-- Lookup in the `PyVal`-keyed value map (`none` = key absent). -/
def dictGetV (d : List (PyVal × PyVal)) (k : PyVal) : Option PyVal :=
  (d.find? (fun p => p.1 == k)).map (fun p => p.2)

/-- One element of a list-shaped `default` argument: an int, a string,
or anything else (`deOther`, e.g. `None`), which falls through
`_resolve_default_keys.match` to `None`. -/
inductive PyDElem where
  | deInt (n : Int)
  | deStr (s : String)
  | deOther
  deriving DecidableEq, Repr

/-- The `default` argument of `OptionPrompt`: `None`, an int, a string,
or a list of elements. -/
inductive PyDefault where
  | pdNone
  | pdInt (n : Int)
  | pdStr (s : String)
  | pdList (l : List PyDElem)
  deriving DecidableEq, Repr

/-- Configuration of an `OptionPrompt` after `__post_init__` normalised
the option container: `optionDict` is `self._option_dict` (a Python
dict, so its keys are unique in any run). -/
structure OptionCfg where
  optionDict : List (String × PyVal)
  defaultSpec : PyDefault := .pdNone
  caseSensitive : Bool := false
  multi : Bool := false
  allowCustom : Bool := false
  deriving DecidableEq, Repr

/-- The display keys: `self._display_keys = list(self._option_dict.keys())`. -/
def displayKeys (cfg : OptionCfg) : List String :=
  cfg.optionDict.map (fun p => p.1)

/-- The value-map part of `OptionPrompt._build_maps`: for each `(k, v)` insert
`k_norm ↦ v` and, when the normalised value text differs, `v_norm ↦ v`.
With `case_sensitive`, `v_norm` is the raw value `v` itself (a non-string
key can appear in the dict). -/
def buildValueMap (cfg : OptionCfg) : List (PyVal × PyVal) :=
  cfg.optionDict.foldl
    (fun m p =>
      let kNorm : PyVal := .vStr (if cfg.caseSensitive then p.1 else pyLower p.1)
      let vNorm : PyVal := if cfg.caseSensitive then p.2 else .vStr (pyLower (pyStr p.2))
      let m' := dictSetV m kNorm p.2
      if vNorm ≠ kNorm then dictSetV m' vNorm p.2 else m')
    []

/-- The index-map part of `OptionPrompt._build_maps`:
`{str(i + 1): self._option_dict[k] for i, k in enumerate(self._display_keys)}`. -/
def buildIndexMap (cfg : OptionCfg) : List (String × PyVal) :=
  cfg.optionDict.enum.map (fun p => (toString (p.1 + 1), dictGetKE cfg.optionDict p.2.1))

/-- The inner `match` of `OptionPrompt._resolve_default_keys`: an int in
`[0, len)` picks `self._display_keys[val]`; a string is compared (case
rule applied) with each key text and value text, first hit wins;
anything else yields `None`. -/
def matchElem (cfg : OptionCfg) : PyDElem → Option String
  | .deInt n =>
      if 0 ≤ n ∧ n < (displayKeys cfg).length then
        (displayKeys cfg).get? n.toNat
      else none
  | .deStr s =>
      let cmp := if cfg.caseSensitive then s else pyLower s
      (cfg.optionDict.find? (fun p =>
          let kCmp := if cfg.caseSensitive then p.1 else pyLower p.1
          let vCmp : PyVal := if cfg.caseSensitive then p.2 else .vStr (pyLower (pyStr p.2))
          (PyVal.vStr cmp == PyVal.vStr kCmp) || (PyVal.vStr cmp == vCmp))).map (fun p => p.1)
  | .deOther => none

/-- The inner `match` applied to a scalar (non-list) default spec; `None` is
neither int nor string and yields `None`. -/
def matchScalar (cfg : OptionCfg) : PyDefault → Option String
  | .pdInt n => matchElem cfg (.deInt n)
  | .pdStr s => matchElem cfg (.deStr s)
  | _ => none

/-- Python truthiness filter used by `_resolve_default_keys`: `None` and
the empty string are falsy and dropped. -/
def truthyKey (o : Option String) : Option String :=
  o.bind (fun s => if s = "" then none else some s)

/-- The body of `OptionPrompt._resolve_default_keys`: a list default resolves each
element independently, keeping only truthy matches
(`[m for d in default if (m := match(d))]`); a scalar default yields
`[m] if m else []`. -/
def resolveDefaultKeys (cfg : OptionCfg) : List String :=
  match cfg.defaultSpec with
  | .pdList l => l.filterMap (fun d => truthyKey (matchElem cfg d))
  | d => (truthyKey (matchScalar cfg d)).toList

/-- Python dict assignment `d[k] = v` on a string-keyed association
list: overwrite the existing entry in place, else append. -/
def dictSet (d : List (String × PyVal)) (k : String) (v : PyVal) : List (String × PyVal) :=
  if d.any (fun p => p.1 == k) then
    d.map (fun p => if p.1 == k then (k, v) else p)
  else d ++ [(k, v)]

/-- Normalisation of a sequence of options in `OptionPrompt.__post_init__`
(`{opt: opt for opt in self.options}`): each option becomes both key and
value. -/
def dictFromSeq (opts : List String) : List (String × PyVal) :=
  opts.foldl (fun d o => dictSet d o (.vStr o)) []

/-- Result of one `_do_ask` call: either a parsed value or the `_Retry`
sentinel, together with the warnings `plim.warn` emitted on the way. -/
inductive DoAskRes (α : Type) where
  | retry (warns : List String)
  | value (v : α)
  deriving DecidableEq, Repr

/-- What an `OptionPrompt._do_ask` can hand back to the loop: a single
value or a list of values. -/
inductive PyRes where
  | one (v : PyVal)
  | many (l : List PyVal)
  deriving DecidableEq, Repr

/-- The token list of multi-select parsing:
`[t.strip() for t in norm.split(",") if t.strip()]`. -/
def tokenize (norm : String) : List String :=
  ((pySplitComma norm).map pyStrip).filter (fun t => t ≠ "")

/-- The warning of the single-select no-match branch. -/
def invalidSingleMsg (cfg : OptionCfg) : String :=
  "⚠️ Invalid input. Expected one of: " ++ pyJoin ", " (displayKeys cfg)

/-- The warning of the multi-select unknown-tokens branch. -/
def invalidMultiMsg (unknown : List String) : String :=
  "⚠️ Invalid input: " ++ pyJoin ", " unknown

/-- The `for token in …` loop of multi-select `_parse_input`: per token
try the index map, then the value map; an unshadowed `all`/`none` token
replaces the whole selection and breaks; otherwise append as custom or
collect as unknown. Returns the final `(selected, unknown)` pair. -/
def multiStep (cfg : OptionCfg) :
    List String → List PyVal → List String → List PyVal × List String
  | [], selected, unknown => (selected, unknown)
  | t :: ts, selected, unknown =>
    match dictGet (buildIndexMap cfg) t with
    | some v => multiStep cfg ts (selected ++ [v]) unknown
    | none =>
      match dictGetV (buildValueMap cfg) (.vStr t) with
      | some v => multiStep cfg ts (selected ++ [v]) unknown
      | none =>
        if t = "all" ∨ t = "none" then
          (if t = "all" then cfg.optionDict.map (fun p => p.2) else [], unknown)
        else if cfg.allowCustom then
          multiStep cfg ts (selected ++ [PyVal.vStr t]) unknown
        else
          multiStep cfg ts selected (unknown ++ [t])

/-- Embedding of `OptionPrompt._parse_input`. Single-select: index map, then value
map, then verbatim custom if allowed, else warn and `_Retry`.
Multi-select: run the token loop; any unknown token rejects the whole
input with a combined warning. -/
def parseInput (cfg : OptionCfg) (raw : String) : DoAskRes PyRes :=
  let norm := if cfg.caseSensitive then raw else pyLower raw
  if cfg.multi then
    let r := multiStep cfg (tokenize norm) [] []
    if r.2 ≠ [] then .retry [invalidMultiMsg r.2] else .value (.many r.1)
  else
    match dictGet (buildIndexMap cfg) norm with
    | some v => .value (.one v)
    | none =>
      match dictGetV (buildValueMap cfg) (.vStr norm) with
      | some v => .value (.one v)
      | none =>
        if cfg.allowCustom then .value (.one (.vStr raw))
        else .retry [invalidSingleMsg cfg]

/-- Embedding of `OptionPrompt._handle_empty`. With `default is None` the answer is
`None` (single) or `[]` (multi); otherwise the resolved default keys are
dereferenced — `self._default_keys[0]` raises `IndexError` when the
default spec resolved to no key. -/
def handleEmpty (cfg : OptionCfg) : Except String (DoAskRes PyRes) :=
  if cfg.defaultSpec = .pdNone then
    .ok (.value (if cfg.multi then .many [] else .one .vNone))
  else if cfg.multi then
    .ok (.value (.many ((resolveDefaultKeys cfg).map (dictGetKE cfg.optionDict))))
  else
    match resolveDefaultKeys cfg with
    | [] => .error "IndexError"
    | k :: _ => .ok (.value (.one (dictGetKE cfg.optionDict k)))

/-- Embedding of `OptionPrompt._do_ask` as a function of the raw line returned by the
line reader (`plim.ask(...) or ""`). -/
def optionDoAsk (cfg : OptionCfg) (raw : String) : Except String (DoAskRes PyRes) :=
  if raw = "" then handleEmpty cfg else .ok (parseInput cfg raw)

/-- Embedding of `FreeformPrompt._do_ask` in single mode: `return raw or _Retry` —
the empty string is falsy, everything else is returned verbatim. -/
def freeformSingleDoAsk (raw : String) : DoAskRes String :=
  if raw = "" then .retry [] else .value raw

/-- Output the retry loop itself emits. -/
inductive LoopEvent where
  | errorNotice (msg : String)
  | divider
  deriving DecidableEq, Repr

/-- One finished run of `PromptBase.ask`: the returned object (`some v`
for an answer, `none` for the Python `None` returned on exhaustion),
the value of `self._attempts` at return, the number of `_do_ask`
invocations, and the loop's own output. -/
structure AskRun (α : Type) where
  result : Option α
  attempts : Nat
  calls : Nat
  events : List LoopEvent
  deriving DecidableEq, Repr

/-- The error notice printed when retries are exhausted. -/
def exhaustMsg : String := "❌ Too many invalid attempts."

/-- The decision of `PromptBase._confirm` on a raw response:
`(resp or "").strip().lower() not in {"n", "no"}`. -/
def confirmAccepted (resp : String) : Bool :=
  !(pyLower (pyStrip resp) == "n" || pyLower (pyStrip resp) == "no")

/-- Bump the `_do_ask` call count of a finished run by one. -/
def addCall {α : Type} (r : AskRun α) : AskRun α := { r with calls := r.calls + 1 }

/-- The `while self._attempts < self.retries` loop of `PromptBase.ask`,
written with the loop's termination measure `fuel = retries - a` made
explicit (`a` is `self._attempts`; each continue increments `a`). A
`_Retry` or a declined confirmation increments the counter and loops;
a kept value returns with the counter unchanged; once `a` reaches
`retries` the loop emits the error notice and a divider and returns
`None`. Exceptions from `_do_ask` propagate. -/
def askLoop {α : Type} (confirm : Bool) (doAsk : Nat → Except String (DoAskRes α))
    (conf : Nat → Bool) : Nat → Nat → Except String (AskRun α)
  | 0, a => .ok ⟨none, a, 0, [.errorNotice exhaustMsg, .divider]⟩
  | fuel + 1, a =>
    match doAsk a with
    | .error e => .error e
    | .ok (.retry _) => (askLoop confirm doAsk conf fuel (a + 1)).map addCall
    | .ok (.value v) =>
      if confirm && !(conf a) then
        (askLoop confirm doAsk conf fuel (a + 1)).map addCall
      else .ok ⟨some v, a, 1, []⟩

/-- Embedding of `PromptBase.ask`: run the loop from `self._attempts = 0`. `doAsk n`
is the outcome of the `n`-th `_do_ask` call, `conf n` whether the
confirmation after the `n`-th attempt was accepted. -/
def ask {α : Type} (retries : Nat) (confirm : Bool)
    (doAsk : Nat → Except String (DoAskRes α)) (conf : Nat → Bool) :
    Except String (AskRun α) :=
  askLoop confirm doAsk conf retries 0

/-- A run of `OptionPrompt(...).ask()` with `input n` the line the reader returns
on the `n`-th attempt and `conf n` the confirmation decision. -/
def optionAsk (cfg : OptionCfg) (retries : Nat) (confirm : Bool)
    (input : Nat → String) (conf : Nat → Bool) : Except String (AskRun PyRes) :=
  ask retries confirm (fun n => optionDoAsk cfg (input n)) conf

/-- The `options` argument of `interactive_prompt`: `None`, a list, a
dict, or any other shape (`badArg`). -/
inductive OptionsArg where
  | noneArg
  | listArg (l : List String)
  | dictArg (d : List (String × PyVal))
  | badArg
  deriving DecidableEq, Repr

/-- Which prompt class `interactive_prompt` dispatches to. -/
inductive RouteResult where
  | freeformR (multi : Bool)
  | optionR (options : OptionsArg)
  deriving DecidableEq, Repr

/-- The `TypeError` message of the router's defensive branch. -/
def typeErrorMsg : String := "'options' must be list, dict, or None"

/-- The dispatch logic of `interactive_prompt`: an explicit freeform
mode wins; then `options is None` means single freeform; then a list or
dict dispatches to `OptionPrompt`; anything else raises `TypeError`. -/
def interactivePromptRoute (options : OptionsArg) (freeformMode : String) :
    Except String RouteResult :=
  if freeformMode = "single" ∨ freeformMode = "multi" then
    .ok (.freeformR (freeformMode = "multi"))
  else
    match options with
    | .noneArg => .ok (.freeformR false)
    | .listArg l => .ok (.optionR (.listArg l))
    | .dictArg d => .ok (.optionR (.dictArg d))
    | .badArg => .error typeErrorMsg

/-- The configuration `YesNoPrompt.__init__` fixes: catalog
`{"yes": True, "no": False}`, case-insensitive, single-select, no
custom values. -/
def yesNoCfg (default : PyDefault) : OptionCfg :=
  { optionDict := [("yes", .vBool true), ("no", .vBool false)],
    defaultSpec := default,
    caseSensitive := false,
    multi := false,
    allowCustom := false }

/-! ## Concrete configurations used by the claim theorems -/

/-- Configuration of `OptionPrompt(options=["a", "b"], default="zzz")`: a single-select
prompt whose default spec matches no catalog entry. -/
def unmatchedDefaultCfg : OptionCfg :=
  { optionDict := dictFromSeq ["a", "b"], defaultSpec := .pdStr "zzz" }

/-- Configuration of `OptionPrompt(options={"Apple": 1, "Banana": 2, "Cherry": 3}, multi=True)`. -/
def fruitMultiCfg : OptionCfg :=
  { optionDict := [("Apple", .vInt 1), ("Banana", .vInt 2), ("Cherry", .vInt 3)],
    multi := true }

/-- Configuration of `OptionPrompt(options=["a", "b", "c"], default=1)`: integer default
spec over a three-key catalog. -/
def intDefaultCfg : OptionCfg :=
  { optionDict := dictFromSeq ["a", "b", "c"], defaultSpec := .pdInt 1 }

/-! ## Claim theorems -/

/-- C2 — On `OptionPrompt(options=["a", "b"], default="zzz")`,
construction resolves the unmatched default spec to no default key, but
submitting empty input hits `self._default_keys[0]` on an empty list and
raises `IndexError` instead of returning the absent-value result the
spec promises. -/
theorem unmatched_default_empty_input_raises :
    resolveDefaultKeys unmatchedDefaultCfg = [] ∧
    optionDoAsk unmatchedDefaultCfg "" = .error "IndexError" := by
  exact ⟨rfl, rfl⟩

/-- C3 counterexample — with `retries = 0` the loop body never runs:
even when the very first `_do_ask` would succeed, the user is asked
zero times (`calls = 0`), and `ask` returns `None` immediately. The
claim's "a single attempt" is refuted. -/
theorem retries_zero_counterexample :
    ask 0 false (fun _ => (.ok (.value (0 : Nat)) : Except String (DoAskRes Nat)))
      (fun _ => true) =
      .ok ⟨none, 0, 0, [.errorNotice exhaustMsg, .divider]⟩ := rfl

/-- C3 amended — `retries = 0` means zero attempts, not one: for every
prompt behaviour, `ask` performs no `_do_ask` call and immediately
emits the error notice and returns the absent-value sentinel. -/
theorem retries_zero_means_zero_attempts (α : Type) (confirm : Bool)
    (doAsk : Nat → Except String (DoAskRes α)) (conf : Nat → Bool) :
    ask 0 confirm doAsk conf =
      .ok ⟨none, 0, 0, [.errorNotice exhaustMsg, .divider]⟩ := rfl

/-- C6 counterexample — with `freeform="single"` the router dispatches
to `FreeformPrompt` before ever inspecting `options`, so an unsupported
`options` shape does not raise the contract violation the claim
demands. -/
theorem router_bad_options_freeform_counterexample :
    interactivePromptRoute .badArg "single" = .ok (.freeformR false) ∧
    interactivePromptRoute .badArg "single" ≠ .error typeErrorMsg := by
  exact ⟨rfl, by decide⟩

/-- C6 amended — the router raises `TypeError` iff no freeform mode is
requested and `options` is supplied with a shape that is neither list
nor dict; when no freeform mode is requested, every supplied list or
dict dispatches to Option Selection without error. -/
theorem router_type_error_iff (opts : OptionsArg) (fm : String) :
    (interactivePromptRoute opts fm = .error typeErrorMsg ↔
      (fm ≠ "single" ∧ fm ≠ "multi" ∧ opts = .badArg)) ∧
    (fm ≠ "single" → fm ≠ "multi" →
      (∀ l : List String,
          interactivePromptRoute (.listArg l) fm = .ok (.optionR (.listArg l))) ∧
      (∀ d : List (String × PyVal),
          interactivePromptRoute (.dictArg d) fm = .ok (.optionR (.dictArg d)))) := by
  constructor
  · constructor
    · intro h
      unfold interactivePromptRoute at h
      by_cases h1 : fm = "single" ∨ fm = "multi"
      · rw [if_pos h1] at h; exact absurd h (by simp)
      · rw [if_neg h1] at h
        push_neg at h1
        refine ⟨h1.1, h1.2, ?_⟩
        cases opts <;> simp_all
    · rintro ⟨h1, h2, rfl⟩
      unfold interactivePromptRoute
      rw [if_neg (by simp [h1, h2])]
  · intro h1 h2
    constructor <;> intro x <;>
      · unfold interactivePromptRoute
        rw [if_neg (by simp [h1, h2])]

/-- C6 amended witness — at `options` of an unsupported shape with
`freeform="none"` the router raises, and a concrete list dispatches to
Option Selection. -/
theorem router_type_error_iff_witness :
    interactivePromptRoute .badArg "none" = .error typeErrorMsg ∧
    interactivePromptRoute (.listArg ["a"]) "none" = .ok (.optionR (.listArg ["a"])) := by
  refine ⟨(router_type_error_iff .badArg "none").1.mpr ⟨by decide, by decide, rfl⟩, ?_⟩
  exact ((router_type_error_iff (.listArg ["a"]) "none").2 (by decide) (by decide)).1 ["a"]

/-- C7 counterexample — freeform single mode does not trim: the input
`" "` is empty after trimming, yet `raw or _Retry` finds it truthy and
returns it verbatim instead of yielding the Retry Sentinel. -/
theorem freeform_whitespace_counterexample :
    freeformSingleDoAsk " " = .value " " ∧ pyStrip " " = "" := by
  exact ⟨rfl, rfl⟩

/-- C7 amended — in freeform single mode, exactly the empty string (no
trimming applied) yields the Retry Sentinel; every non-empty input,
including whitespace-only input, is returned verbatim. -/
theorem freeform_single_empty_iff_retry (s : String) :
    (s = "" → freeformSingleDoAsk s = .retry []) ∧
    (s ≠ "" → freeformSingleDoAsk s = .value s) := by
  constructor
  · intro h; simp [freeformSingleDoAsk, h]
  · intro h; simp [freeformSingleDoAsk, h]

/-- C7 amended witness — the empty string retries; `"x"` comes back
verbatim. -/
theorem freeform_single_empty_iff_retry_witness :
    freeformSingleDoAsk "" = .retry [] ∧ freeformSingleDoAsk "x" = .value "x" := by
  exact ⟨(freeform_single_empty_iff_retry "").1 rfl,
         (freeform_single_empty_iff_retry "x").2 (by decide)⟩

/-- In a list with pairwise-distinct keys (a Python dict), `find?` at
the key of the `i`-th entry returns exactly the `i`-th entry. -/
lemma find?_key_of_nodup (od : List (String × PyVal))
    (hnd : (od.map Prod.fst).Nodup) (i : Nat) (p : String × PyVal)
    (hp : od[i]? = some p) : od.find? (fun q => q.1 == p.1) = some p := by
  induction od generalizing i with
  | nil => simp at hp
  | cons a tl ih =>
    cases i with
    | zero =>
      simp only [List.getElem?_cons_zero, Option.some.injEq] at hp
      subst hp
      exact List.find?_cons_of_pos _ (by simp)
    | succ j =>
      simp only [List.getElem?_cons_succ] at hp
      have hmem : p ∈ tl := List.getElem?_mem hp
      have hkey : p.1 ∈ tl.map Prod.fst := List.mem_map_of_mem Prod.fst hmem
      have hne : a.1 ≠ p.1 := by
        intro h
        exact (List.nodup_cons.mp (by simpa using hnd)).1 (h ▸ hkey)
      rw [List.find?_cons_of_neg _ (by simp [hne])]
      exact ih (List.nodup_cons.mp (by simpa using hnd)).2 j hp

/-- C9 — for every catalog with (pairwise-distinct, as in a Python
dict) keys and at least one entry, the index map has exactly as many
entries as the catalog, its keys are exactly `"1"` through `str(N)` in
order with no gaps, and the entry at position `i` maps `str(i + 1)` to
the underlying value of the catalog key at that position. -/
theorem index_map_exact (od : List (String × PyVal))
    (hnd : (od.map Prod.fst).Nodup) (_hne : od ≠ []) :
    (buildIndexMap { optionDict := od }).length = od.length ∧
    (buildIndexMap { optionDict := od }).map Prod.fst =
      (List.range od.length).map (fun i => toString (i + 1)) ∧
    ∀ i : Nat, i < od.length →
      (buildIndexMap { optionDict := od })[i]? =
        (od[i]?).map (fun p => (toString (i + 1), p.2)) := by
  refine ⟨?_, ?_, ?_⟩
  · simp [buildIndexMap]
  · show (od.enum.map _).map Prod.fst = _
    rw [List.map_map]
    have h1 : (Prod.fst ∘ fun p : Nat × (String × PyVal) =>
        (toString (p.1 + 1), dictGetKE od p.2.1)) =
        (fun i => toString (i + 1)) ∘ Prod.fst := rfl
    rw [h1, ← List.map_map, List.enum_map_fst od]
  · intro i hi
    show (od.enum.map _)[i]? = _
    rw [List.getElem?_map, List.getElem?_enum]
    obtain ⟨p, hp⟩ : ∃ p, od[i]? = some p := by
      rw [List.getElem?_eq_getElem hi]; exact ⟨_, rfl⟩
    rw [hp]
    have hfind := find?_key_of_nodup od hnd i p hp
    simp [dictGetKE, hfind]

/-- C9 witness — the three-fruit catalog: three entries, keys exactly
`"1" "2" "3"`, and position 1 maps `"2"` to the value of `"Banana"`. -/
theorem index_map_exact_witness :
    (buildIndexMap { optionDict := [("Apple", PyVal.vInt 1), ("Banana", PyVal.vInt 2),
        ("Cherry", PyVal.vInt 3)] }).length = 3 ∧
    (buildIndexMap { optionDict := [("Apple", PyVal.vInt 1), ("Banana", PyVal.vInt 2),
        ("Cherry", PyVal.vInt 3)] }).map Prod.fst = ["1", "2", "3"] ∧
    (buildIndexMap { optionDict := [("Apple", PyVal.vInt 1), ("Banana", PyVal.vInt 2),
        ("Cherry", PyVal.vInt 3)] })[1]? = some ("2", PyVal.vInt 2) := by
  have h := index_map_exact
    [("Apple", PyVal.vInt 1), ("Banana", PyVal.vInt 2), ("Cherry", PyVal.vInt 3)]
    (by decide) (by decide)
  exact ⟨by simpa using h.1, h.2.1.trans (by decide), (h.2.2 1 (by decide)).trans (by decide)⟩

/-- C8 — if every attempt up to `retries` yields the Retry Sentinel,
`ask` terminates with the absent-value sentinel (`result = none`,
distinct by construction from the in-loop Retry Sentinel), the attempt
counter equal to `retries`, and the error notice emitted before
returning. -/
theorem ask_all_invalid_exhausts (α : Type) (R : Nat) (confirm : Bool)
    (doAsk : Nat → Except String (DoAskRes α)) (conf : Nat → Bool)
    (warns : Nat → List String)
    (h : ∀ n, n < R → doAsk n = .ok (.retry (warns n))) :
    ask R confirm doAsk conf =
      .ok ⟨none, R, R, [.errorNotice exhaustMsg, .divider]⟩ := by
  have main : ∀ fuel a,
      (∀ n, a ≤ n → n < a + fuel → doAsk n = .ok (.retry (warns n))) →
      askLoop confirm doAsk conf fuel a =
        .ok ⟨none, a + fuel, fuel, [.errorNotice exhaustMsg, .divider]⟩ := by
    intro fuel
    induction fuel with
    | zero => intro a _; simp [askLoop]
    | succ f ih =>
      intro a ha
      have hd : doAsk a = .ok (.retry (warns a)) := ha a (Nat.le_refl a) (by omega)
      have hr := ih (a + 1) (fun n h1 h2 => ha n (by omega) (by omega))
      have harith : a + 1 + f = a + (f + 1) := by omega
      simp only [askLoop, hd, hr, Except.map, addCall, harith]
  have hz := main R 0 (fun n _ h2 => h n (by omega))
  simpa [ask] using hz

/-- C8 witness — two attempts, both invalid: the run ends with `None`,
attempt counter 2, and the error notice emitted. -/
theorem ask_all_invalid_exhausts_witness :
    ask 2 false (fun _ => (.ok (.retry []) : Except String (DoAskRes Nat)))
      (fun _ => true) =
      .ok ⟨none, 2, 2, [.errorNotice exhaustMsg, .divider]⟩ :=
  ask_all_invalid_exhausts Nat 2 false _ _ (fun _ => []) (fun _ _ => rfl)

/-- C5 counterexample — on the catalog `["a", "b", "c"]` (N = 3) the
integer default spec `1` resolves to `"b"`, the key at 0-based position
1, not to `"a"`, the key at 1-based position 1; and the spec `3`,
although `1 ≤ 3 ≤ N`, matches nothing at all. -/
theorem int_default_counterexample :
    resolveDefaultKeys intDefaultCfg = ["b"] ∧
    (displayKeys intDefaultCfg)[0]? = some "a" ∧
    resolveDefaultKeys { intDefaultCfg with defaultSpec := .pdInt 3 } = [] := by
  exact ⟨rfl, rfl, rfl⟩

/-- C5 amended — an integer default spec `d` resolves 0-based: for
`0 ≤ d ≤ N - 1` it picks the catalog key at 0-based position `d`
(1-based position `d + 1`), provided that key is non-empty text; the
numeric default convention is therefore off by one from the 1-based
index map used for parsing. -/
theorem int_default_zero_based (cfg : OptionCfg) (d : Nat) (k : String)
    (hspec : cfg.defaultSpec = .pdInt (d : Int))
    (hk : (displayKeys cfg)[d]? = some k) (hne : k ≠ "") :
    resolveDefaultKeys cfg = [k] := by
  have hd : d < (displayKeys cfg).length := by
    by_contra hcon
    rw [List.getElem?_eq_none (by omega)] at hk
    exact Option.noConfusion hk
  unfold resolveDefaultKeys
  rw [hspec]
  show (truthyKey (matchScalar cfg (.pdInt (d : Int)))).toList = [k]
  have h0 : (0 : Int) ≤ (d : Int) := Int.ofNat_nonneg d
  have h1 : ((d : Int)) < ((displayKeys cfg).length : Int) := by exact_mod_cast hd
  simp only [matchScalar, matchElem, if_pos (And.intro h0 h1)]
  rw [Int.toNat_natCast, List.get?_eq_getElem?, hk]
  simp [truthyKey, hne]

/-- C5 amended witness — on the three-fruit catalog, integer default
`0` resolves to `"Apple"`, the key at 0-based position 0. -/
theorem int_default_zero_based_witness :
    resolveDefaultKeys { optionDict := [("Apple", PyVal.vInt 1), ("Banana", PyVal.vInt 2),
        ("Cherry", PyVal.vInt 3)], defaultSpec := .pdInt 0 } = ["Apple"] := by
  exact int_default_zero_based _ 0 "Apple" rfl (by decide) (by decide)

/-- With custom values disallowed, `_parse_input` depends on the raw
input only through the normalised text. -/
lemma parseInput_congr (cfg : OptionCfg) (hac : cfg.allowCustom = false)
    (raw raw' : String)
    (h : (if cfg.caseSensitive then raw else pyLower raw) =
         (if cfg.caseSensitive then raw' else pyLower raw')) :
    parseInput cfg raw = parseInput cfg raw' := by
  unfold parseInput
  rw [h]
  simp [hac]

/-- The Boolean prompt is case-insensitive and rejects custom values,
so parsing only sees the lower-cased input. -/
lemma yesno_norm_congr (s t : String) (ht : pyLower s = pyLower t) :
    parseInput (yesNoCfg .pdNone) s = parseInput (yesNoCfg .pdNone) t :=
  parseInput_congr _ rfl s t ht

/-- Complete case analysis of Boolean-prompt parsing: the index map
accepts `1`/`2`, the value map accepts `yes`/`true`/`no`/`false`,
everything else warns and retries. -/
lemma yesno_parse_eq (s : String) :
    parseInput (yesNoCfg .pdNone) s =
      if pyLower s = "yes" ∨ pyLower s = "true" ∨ pyLower s = "1" then
        .value (.one (.vBool true))
      else if pyLower s = "no" ∨ pyLower s = "false" ∨ pyLower s = "2" then
        .value (.one (.vBool false))
      else .retry [invalidSingleMsg (yesNoCfg .pdNone)] := by
  by_cases h1 : pyLower s = "yes"
  · rw [yesno_norm_congr s "yes" h1, if_pos (Or.inl h1)]; rfl
  by_cases h2 : pyLower s = "true"
  · rw [yesno_norm_congr s "true" h2, if_pos (Or.inr (Or.inl h2))]; rfl
  by_cases h3 : pyLower s = "1"
  · rw [yesno_norm_congr s "1" h3, if_pos (Or.inr (Or.inr h3))]; rfl
  by_cases h4 : pyLower s = "no"
  · rw [yesno_norm_congr s "no" h4, if_neg (by tauto), if_pos (Or.inl h4)]; rfl
  by_cases h5 : pyLower s = "false"
  · rw [yesno_norm_congr s "false" h5, if_neg (by tauto), if_pos (Or.inr (Or.inl h5))]; rfl
  by_cases h6 : pyLower s = "2"
  · rw [yesno_norm_congr s "2" h6, if_neg (by tauto), if_pos (Or.inr (Or.inr h6))]; rfl
  rw [if_neg (by tauto), if_neg (by tauto)]
  have e1 : dictGet (buildIndexMap (yesNoCfg .pdNone)) (pyLower s) = none := by
    have hm : buildIndexMap (yesNoCfg .pdNone) =
        [("1", PyVal.vBool true), ("2", PyVal.vBool false)] := rfl
    rw [hm, dictGet, List.find?_cons_of_neg _ (by simp; exact fun h => h3 h.symm),
        List.find?_cons_of_neg _ (by simp; exact fun h => h6 h.symm)]
    rfl
  have e2 : dictGetV (buildValueMap (yesNoCfg .pdNone)) (.vStr (pyLower s)) = none := by
    have hm : buildValueMap (yesNoCfg .pdNone) =
        [(.vStr "yes", PyVal.vBool true), (.vStr "true", PyVal.vBool true),
         (.vStr "no", PyVal.vBool false), (.vStr "false", PyVal.vBool false)] := rfl
    rw [hm, dictGetV,
        List.find?_cons_of_neg _ (by simp; exact fun h => h1 h.symm),
        List.find?_cons_of_neg _ (by simp; exact fun h => h2 h.symm),
        List.find?_cons_of_neg _ (by simp; exact fun h => h4 h.symm),
        List.find?_cons_of_neg _ (by simp; exact fun h => h5 h.symm)]
    rfl
  show (match dictGet (buildIndexMap (yesNoCfg .pdNone)) (pyLower s) with
    | some v => DoAskRes.value (PyRes.one v)
    | none =>
      match dictGetV (buildValueMap (yesNoCfg .pdNone)) (PyVal.vStr (pyLower s)) with
      | some v => DoAskRes.value (PyRes.one v)
      | none => DoAskRes.retry [invalidSingleMsg (yesNoCfg .pdNone)]) =
    DoAskRes.retry [invalidSingleMsg (yesNoCfg .pdNone)]
  rw [e1, e2]

/-- C1 counterexample — on the Boolean prompt, the input `"N"` is not
accepted: it normalises to `"n"`, which is in neither the index map
(`1`/`2`) nor the value map (`yes`/`true`/`no`/`false`), so the
validation step warns (listing `yes, no`) and yields the Retry
Sentinel instead of returning `false`. -/
theorem yesno_input_N_counterexample :
    parseInput (yesNoCfg .pdNone) "N" =
      .retry ["⚠️ Invalid input. Expected one of: yes, no"] ∧
    parseInput (yesNoCfg .pdNone) "N" ≠ .value (.one (.vBool false)) := by
  exact ⟨rfl, by decide⟩

/-- C1 amended — input `"no"` (in any casing) is accepted and the
validation step returns `false`, while both `"maybe"` and `"N"` yield
the Retry Sentinel together with the warning listing `yes, no`. -/
theorem yesno_no_accepted_maybe_retries (s : String) (h : pyLower s = "no") :
    parseInput (yesNoCfg .pdNone) s = .value (.one (.vBool false)) ∧
    parseInput (yesNoCfg .pdNone) "maybe" =
      .retry ["⚠️ Invalid input. Expected one of: yes, no"] ∧
    parseInput (yesNoCfg .pdNone) "N" =
      .retry ["⚠️ Invalid input. Expected one of: yes, no"] := by
  refine ⟨?_, rfl, rfl⟩
  rw [yesno_norm_congr s "no" h]
  rfl

/-- C1 amended witness — `"No"` lower-cases to `"no"` and returns
`false`. -/
theorem yesno_no_accepted_maybe_retries_witness :
    parseInput (yesNoCfg .pdNone) "No" = .value (.one (.vBool false)) :=
  (yesno_no_accepted_maybe_retries "No" rfl).1

/-- C10 — the complete set of accepted non-empty Boolean-prompt inputs,
compared after lower-casing, is exactly `yes`/`true`/`1` resolving to
`True` and `no`/`false`/`2` resolving to `False`; every other input
(including `y` and `n`) yields the Retry Sentinel with the warning
listing `yes, no`. -/
theorem yesno_accepted_inputs (s : String) (_hs : s ≠ "") :
    (parseInput (yesNoCfg .pdNone) s = .value (.one (.vBool true)) ↔
      (pyLower s = "yes" ∨ pyLower s = "true" ∨ pyLower s = "1")) ∧
    (parseInput (yesNoCfg .pdNone) s = .value (.one (.vBool false)) ↔
      (pyLower s = "no" ∨ pyLower s = "false" ∨ pyLower s = "2")) ∧
    (parseInput (yesNoCfg .pdNone) s = .retry [invalidSingleMsg (yesNoCfg .pdNone)] ↔
      ¬(pyLower s = "yes" ∨ pyLower s = "true" ∨ pyLower s = "1" ∨
        pyLower s = "no" ∨ pyLower s = "false" ∨ pyLower s = "2")) := by
  rw [yesno_parse_eq s]
  split_ifs with ha hb <;> simp_all
  rcases ha with h | h | h <;> rw [h] <;> decide

/-- C10 witness — `"TRUE"` resolves to `True`; the single letters `"y"`
and `"n"` are rejected with the Retry Sentinel. -/
theorem yesno_accepted_inputs_witness :
    parseInput (yesNoCfg .pdNone) "TRUE" = .value (.one (.vBool true)) ∧
    parseInput (yesNoCfg .pdNone) "y" = .retry [invalidSingleMsg (yesNoCfg .pdNone)] ∧
    parseInput (yesNoCfg .pdNone) "n" = .retry [invalidSingleMsg (yesNoCfg .pdNone)] := by
  refine ⟨(yesno_accepted_inputs "TRUE" (by decide)).1.mpr (by decide),
          (yesno_accepted_inputs "y" (by decide)).2.2.mpr (by decide),
          (yesno_accepted_inputs "n" (by decide)).2.2.mpr (by decide)⟩

/-- C4 counterexample — multi-select on the three-fruit catalog with
custom values disallowed: the input `"bogus, all"` contains the literal
token `"all"`, yet the unknown token `"bogus"` collected before the
shortcut makes the whole input be rejected with the Retry Sentinel
instead of yielding the full value set. -/
theorem multi_all_with_unknown_counterexample :
    parseInput fruitMultiCfg "bogus, all" = .retry ["⚠️ Invalid input: bogus"] ∧
    parseInput fruitMultiCfg "bogus, all" ≠
      .value (.many [PyVal.vInt 1, PyVal.vInt 2, PyVal.vInt 3]) := by
  exact ⟨rfl, by decide⟩

/-- The token loop of multi-select parsing: if every token before an
unshadowed `all`/`none` shortcut is consumed (map hit or custom), the
shortcut replaces the whole selection, stops the loop, and leaves no
unknown token. -/
lemma multiStep_shortcut (cfg : OptionCfg) (t0 : String) (post : List String)
    (ht0 : t0 = "all" ∨ t0 = "none")
    (hs1 : dictGet (buildIndexMap cfg) t0 = none)
    (hs2 : dictGetV (buildValueMap cfg) (.vStr t0) = none) :
    ∀ (pre : List String) (sel : List PyVal),
      (∀ t ∈ pre, dictGet (buildIndexMap cfg) t ≠ none ∨
        dictGetV (buildValueMap cfg) (.vStr t) ≠ none ∨
        (t ≠ "all" ∧ t ≠ "none" ∧ cfg.allowCustom = true)) →
      multiStep cfg (pre ++ t0 :: post) sel [] =
        ((if t0 = "all" then cfg.optionDict.map (fun p => p.2) else []), []) := by
  intro pre
  induction pre with
  | nil =>
    intro sel _
    simp only [List.nil_append, multiStep, hs1, hs2]
    rw [if_pos ht0]
  | cons t ts ih =>
    intro sel hpre
    have hcons := hpre t (List.mem_cons_self t ts)
    have hrest : ∀ u ∈ ts, dictGet (buildIndexMap cfg) u ≠ none ∨
        dictGetV (buildValueMap cfg) (.vStr u) ≠ none ∨
        (u ≠ "all" ∧ u ≠ "none" ∧ cfg.allowCustom = true) :=
      fun u hu => hpre u (List.mem_cons_of_mem t hu)
    rw [List.cons_append]
    cases hidx : dictGet (buildIndexMap cfg) t with
    | some v =>
      simp only [multiStep, hidx]
      exact ih (sel ++ [v]) hrest
    | none =>
      cases hvm : dictGetV (buildValueMap cfg) (.vStr t) with
      | some v =>
        simp only [multiStep, hidx, hvm]
        exact ih (sel ++ [v]) hrest
      | none =>
        rcases hcons with hx | hx | hx
        · exact absurd hidx hx
        · exact absurd hvm hx
        · obtain ⟨hta, htn, hac⟩ := hx
          simp only [multiStep, hidx, hvm]
          rw [if_neg (show ¬(t = "all" ∨ t = "none") from by tauto), hac, if_pos rfl]
          exact ih (sel ++ [PyVal.vStr t]) hrest

/-- C4 amended — in multi-select parsing, an `all` token anywhere in
the comma list yields the full catalog value set and a `none` token
the empty list, discarding earlier accumulated tokens and skipping
later ones — provided the shortcut token is not shadowed by a catalog
index/key/value and every earlier token was consumed (matched the
catalog, or was taken as custom); an unknown token collected before
the shortcut instead rejects the whole input with the Retry
Sentinel. -/
theorem multi_all_none_override (cfg : OptionCfg) (hm : cfg.multi = true)
    (raw : String) (pre post : List String) (t0 : String)
    (hsplit : tokenize (if cfg.caseSensitive then raw else pyLower raw) =
      pre ++ t0 :: post)
    (ht0 : t0 = "all" ∨ t0 = "none")
    (hs1 : dictGet (buildIndexMap cfg) t0 = none)
    (hs2 : dictGetV (buildValueMap cfg) (.vStr t0) = none)
    (hpre : ∀ t ∈ pre, dictGet (buildIndexMap cfg) t ≠ none ∨
        dictGetV (buildValueMap cfg) (.vStr t) ≠ none ∨
        (t ≠ "all" ∧ t ≠ "none" ∧ cfg.allowCustom = true)) :
    parseInput cfg raw =
      .value (.many (if t0 = "all" then cfg.optionDict.map (fun p => p.2) else [])) := by
  have hms := multiStep_shortcut cfg t0 post ht0 hs1 hs2 pre [] hpre
  simp only [parseInput, hm, hsplit, hms, if_true]
  simp

/-- C4 amended witness — `"1, all"` on the three-fruit multi-select:
the valid token `1` is accumulated, then `all` overrides it with the
full value set. -/
theorem multi_all_none_override_witness :
    parseInput fruitMultiCfg "1, all" =
      .value (.many [PyVal.vInt 1, PyVal.vInt 2, PyVal.vInt 3]) := by
  have h := multi_all_none_override fruitMultiCfg rfl "1, all" ["1"] [] "all"
    (by decide) (Or.inl rfl) (by decide) (by decide) (by decide)
  simpa using h

end PromptEngine
